import Mathlib

/-!
Shallow embedding of the kube-nap-charts health-api service, covering the
grafana-backed alert-state store, the health business layer, the structured
error taxonomy, the HTTP handlers, and the middleware pipeline, together
with proofs about the properties of this code.

Conventions of the embedding:
* JSON values decoded by `encoding/json` into `map[string]any` are modelled
  by the `Json` inductive; a decoded object is an association list with
  unique keys, so first-match lookup coincides with Go map access.
* Go `time.Time` values are modelled as `Int` (nanoseconds), with `0` as the
  zero time; `time.Parse(time.RFC3339, s)` is an abstract parameter
  `parse : String → Option Int`, and `time.Now()` an abstract `now : Int`.
* The HTTP exchange with the grafana backend is abstracted by
  `FetchOutcome`: request construction failure, transport failure, or a
  response with a status code and an optionally-decoded JSON object body.
* Go `int` counters that are only ever incremented from zero are modelled
  as `Nat`.
-/

/-- A decoded JSON value, as produced by Go's `encoding/json` into
`map[string]any` / `[]any` / `string` / `bool` / `float64` / `nil`. -/
inductive Json where
  | null
  | bool (b : Bool)
  | str (s : String)
  | num (n : Int)
  | arr (xs : List Json)
  | obj (fields : List (String × Json))

/-- A decoded JSON object (`map[string]any` in Go). Keys are unique because
`encoding/json` decodes into a map. -/
abbrev JObj := List (String × Json)

/-- Go map read `m[key]` on a decoded JSON object: the value when the key is
present, absent otherwise. -/
def jlookup : JObj → String → Option Json
  | [], _ => none
  | (k, v) :: rest, key => if k = key then some v else jlookup rest key

/-- Go map read on a `map[string]string` with the zero-value default `""`
for a missing key. -/
def mget : List (String × String) → String → String
  | [], _ => ""
  | (k, v) :: rest, key => if k = key then v else mget rest key

namespace healthbus

/-- Constant `StatusHealthy` of healthbus (Go `Status` is a string type). -/
def StatusHealthy : String := "healthy"

/-- Constant `StatusDown` of healthbus. -/
def StatusDown : String := "down"

/-- Constant `StatusUnknown` of healthbus. -/
def StatusUnknown : String := "unknown"

/-- healthbus.HealthCheck. `LastChecked` is a `time.Time`, modelled as `Int`. -/
structure HealthCheck where
  Target : String
  Status : String
  LastChecked : Int
  Probe : String
  Instance : String
deriving DecidableEq

/-- healthbus.HealthSummary. -/
structure HealthSummary where
  Total : Nat
  Healthy : Nat
  Down : Nat
  Unknown : Nat
  Checks : List HealthCheck
deriving DecidableEq

/-- healthbus.Alert. `Labels` and `Annotations` are Go string maps, modelled
as association lists with unique keys. -/
structure Alert where
  UID : String
  Title : String
  State : String
  Labels : List (String × String)
  Annotations : List (String × String)
  ActiveAt : String
  Value : String
deriving DecidableEq

/-- healthbus.AlertSummary. -/
structure AlertSummary where
  Total : Nat
  Firing : Nat
  Pending : Nat
  Normal : Nat
  Alerts : List Alert
deriving DecidableEq

end healthbus

namespace grafanastore

open healthbus

/-- The distinct failure exits of the grafanastore query methods (each is a
`fmt.Errorf` in the source; the constructor records which one). -/
inductive StoreError where
  | notConfigured
  | creatingRequest
  | queryingState
  | badStatus (code : Int)
  | decoding
  | targetNotFound (target : String)
deriving DecidableEq

/-- The Go error message carried by each failure exit. -/
def StoreError.message : StoreError → String
  | .notConfigured => "grafana not configured"
  | .creatingRequest => "creating state request"
  | .queryingState => "querying alert state"
  | .badStatus code => "grafana returned status " ++ toString code
  | .decoding => "decoding state response"
  | .targetNotFound target => "target not found: " ++ target

/-- grafanastore.Store (the `log` and `httpClient` fields carry no
query-relevant state and are omitted). -/
structure Store where
  grafanaURL : String
  grafanaUser : String
  grafanaPassword : String

/-- Abstraction of the HTTP round trip each query method performs against
`%s/api/prometheus/grafana/api/v1/rules`: building the request can fail,
sending it can fail, or a response arrives with a status code and a body
that either decodes into a JSON object (`some`) or fails to decode (`none`). -/
inductive FetchOutcome where
  | requestError
  | transportError
  | response (statusCode : Int) (decoded : Option JObj)

/-- Helper `getString` of grafanastore: string-typed field of a decoded
object, `""` when absent or not a string. -/
def getString (m : JObj) (key : String) : String :=
  match jlookup m key with
  | some (Json.str v) => v
  | _ => ""

/-- Helper `getStringMap` of grafanastore: the string-valued entries of a
nested object, empty when the key is absent or not an object. -/
def getStringMap (m : JObj) (key : String) : List (String × String) :=
  match jlookup m key with
  | some (Json.obj fields) =>
    fields.filterMap (fun kv =>
      match kv.2 with
      | Json.str s => some (kv.1, s)
      | _ => none)
  | _ => []

/-- The state-to-status projection written inline (identically) in
`QueryHealthChecks` and `QueryHealthCheckByTarget`: start from healthy,
override for `"firing"` and `"pending"`. -/
def ruleStatus (state : String) : String :=
  if state = "firing" then StatusDown
  else if state = "pending" then StatusUnknown
  else StatusHealthy

/-- The `lastChecked` computation both query methods perform on a rule:
`activeAt` of the first nested alert when parseable, else the current time. -/
def ruleLastChecked (parse : String → Option Int) (now : Int) (r : JObj) : Int :=
  let lastChecked : Int :=
    match jlookup r "alerts" with
    | some (Json.arr (a :: _)) =>
      match a with
      | Json.obj ao =>
        match parse (getString ao "activeAt") with
        | some t => t
        | none => 0
      | _ => 0
    | _ => 0
  if lastChecked = 0 then now else lastChecked

/-- The body of the inner rule loop of `QueryHealthChecks` (lines 99-135):
a rule without a `target` label contributes nothing, any other rule is
projected to a `HealthCheck`. -/
def ruleToCheck (parse : String → Option Int) (now : Int) (r : JObj) : Option HealthCheck :=
  let state := getString r "state"
  let labels := getStringMap r "labels"
  let target := mget labels "target"
  if target = "" then none
  else some {
    Target := target
    Status := ruleStatus state
    LastChecked := ruleLastChecked parse now r
    Probe := mget labels "probe"
    Instance := "" }

/-- One step of the `for _, rule := range rules` loop of `QueryHealthChecks`:
non-object rules are skipped, retained rules are appended. -/
def checksRuleStep (parse : String → Option Int) (now : Int)
    (checks : List HealthCheck) (rule : Json) : List HealthCheck :=
  match rule with
  | Json.obj r =>
    match ruleToCheck parse now r with
    | some check => checks ++ [check]
    | none => checks
  | _ => checks

/-- One step of the `for _, group := range groups` loop of
`QueryHealthChecks`: non-object groups and groups without a `rules` array
are skipped. -/
def checksGroupStep (parse : String → Option Int) (now : Int)
    (checks : List HealthCheck) (group : Json) : List HealthCheck :=
  match group with
  | Json.obj g =>
    match jlookup g "rules" with
    | some (Json.arr rules) => rules.foldl (checksRuleStep parse now) checks
    | _ => checks
  | _ => checks

/-- The extraction loop of `QueryHealthChecks` (lines 70-139): `data` must
be an object and `groups` an array, otherwise the empty check list. -/
def extractChecks (stateData : JObj) (parse : String → Option Int) (now : Int) :
    List HealthCheck :=
  match jlookup stateData "data" with
  | some (Json.obj data) =>
    match jlookup data "groups" with
    | some (Json.arr groups) => groups.foldl (checksGroupStep parse now) []
    | _ => []
  | _ => []

/-- grafanastore.Store.QueryHealthChecks. -/
def Store.QueryHealthChecks (s : Store) (outcome : FetchOutcome)
    (parse : String → Option Int) (now : Int) :
    Except StoreError (List HealthCheck) :=
  if s.grafanaURL = "" then .error .notConfigured
  else
    match outcome with
    | .requestError => .error .creatingRequest
    | .transportError => .error .queryingState
    | .response statusCode decoded =>
      if statusCode ≠ 200 then .error (.badStatus statusCode)
      else
        match decoded with
        | none => .error .decoding
        | some stateData => .ok (extractChecks stateData parse now)

/-- The `HealthCheck` built for the matching rule in
`QueryHealthCheckByTarget` (lines 207-235). -/
def projectRuleByTarget (parse : String → Option Int) (now : Int)
    (target : String) (r : JObj) : HealthCheck :=
  let state := getString r "state"
  { Target := target
    Status := ruleStatus state
    LastChecked := ruleLastChecked parse now r
    Probe := mget (getStringMap r "labels") "probe"
    Instance := "" }

/-- The inner rule loop of `QueryHealthCheckByTarget`: return on the first
rule whose `labels["target"]` equals the requested target. -/
def findInRules (parse : String → Option Int) (now : Int) (target : String) :
    List Json → Option HealthCheck
  | [] => none
  | rule :: rest =>
    match rule with
    | Json.obj r =>
      if mget (getStringMap r "labels") "target" = target then
        some (projectRuleByTarget parse now target r)
      else findInRules parse now target rest
    | _ => findInRules parse now target rest

/-- The outer group loop of `QueryHealthCheckByTarget`. -/
def findInGroups (parse : String → Option Int) (now : Int) (target : String) :
    List Json → Option HealthCheck
  | [] => none
  | group :: rest =>
    match group with
    | Json.obj g =>
      match jlookup g "rules" with
      | some (Json.arr rules) =>
        match findInRules parse now target rules with
        | some check => some check
        | none => findInGroups parse now target rest
      | _ => findInGroups parse now target rest
    | _ => findInGroups parse now target rest

/-- grafanastore.Store.QueryHealthCheckByTarget. A missing `data` object or
`groups` array, like an exhausted traversal, fails with the
`target not found` error. -/
def Store.QueryHealthCheckByTarget (s : Store) (target : String)
    (outcome : FetchOutcome) (parse : String → Option Int) (now : Int) :
    Except StoreError HealthCheck :=
  if s.grafanaURL = "" then .error .notConfigured
  else
    match outcome with
    | .requestError => .error .creatingRequest
    | .transportError => .error .queryingState
    | .response statusCode decoded =>
      if statusCode ≠ 200 then .error (.badStatus statusCode)
      else
        match decoded with
        | none => .error .decoding
        | some stateData =>
          match jlookup stateData "data" with
          | some (Json.obj data) =>
            match jlookup data "groups" with
            | some (Json.arr groups) =>
              match findInGroups parse now target groups with
              | some check => .ok check
              | none => .error (.targetNotFound target)
            | _ => .error (.targetNotFound target)
          | _ => .error (.targetNotFound target)

/-- The `Alert` built from one rule in `QueryAlerts` (lines 306-318),
including the `activeAt`/`value` fields of the first nested alert instance. -/
def alertOfRule (r : JObj) : Alert :=
  let base : Alert :=
    { UID := ""
      Title := getString r "name"
      State := getString r "state"
      Labels := getStringMap r "labels"
      Annotations := getStringMap r "annotations"
      ActiveAt := ""
      Value := "" }
  match jlookup r "alerts" with
  | some (Json.arr (a :: _)) =>
    match a with
    | Json.obj ao => { base with ActiveAt := getString ao "activeAt", Value := getString ao "value" }
    | _ => base
  | _ => base

/-- Appending one rule to the running summary in `QueryAlerts`
(lines 306-330): the alert always joins `Alerts` and bumps `Total`; the
`switch` bumps exactly one of the three counters, or none for any other
state. -/
def addAlert (summary : AlertSummary) (r : JObj) : AlertSummary :=
  let alert := alertOfRule r
  let summary := { summary with Alerts := summary.Alerts ++ [alert], Total := summary.Total + 1 }
  if alert.State = "firing" then { summary with Firing := summary.Firing + 1 }
  else if alert.State = "pending" then { summary with Pending := summary.Pending + 1 }
  else if alert.State = "normal" then { summary with Normal := summary.Normal + 1 }
  else summary

/-- One step of the rule loop of `QueryAlerts`: non-object rules skipped. -/
def alertsRuleStep (summary : AlertSummary) (rule : Json) : AlertSummary :=
  match rule with
  | Json.obj r => addAlert summary r
  | _ => summary

/-- One step of the group loop of `QueryAlerts`. -/
def alertsGroupStep (summary : AlertSummary) (group : Json) : AlertSummary :=
  match group with
  | Json.obj g =>
    match jlookup g "rules" with
    | some (Json.arr rules) => rules.foldl alertsRuleStep summary
    | _ => summary
  | _ => summary

/-- The initial summary of `QueryAlerts`: `Alerts` starts as the empty
slice, the counters at zero. -/
def emptyAlertSummary : AlertSummary :=
  { Total := 0, Firing := 0, Pending := 0, Normal := 0, Alerts := [] }

/-- grafanastore.Store.QueryAlerts. -/
def Store.QueryAlerts (s : Store) (outcome : FetchOutcome) :
    Except StoreError AlertSummary :=
  if s.grafanaURL = "" then .error .notConfigured
  else
    match outcome with
    | .requestError => .error .creatingRequest
    | .transportError => .error .queryingState
    | .response statusCode decoded =>
      if statusCode ≠ 200 then .error (.badStatus statusCode)
      else
        match decoded with
        | none => .error .decoding
        | some stateData =>
          match jlookup stateData "data" with
          | some (Json.obj data) =>
            match jlookup data "groups" with
            | some (Json.arr groups) => .ok (groups.foldl alertsGroupStep emptyAlertSummary)
            | _ => .ok emptyAlertSummary
          | _ => .ok emptyAlertSummary

end grafanastore

namespace healthbus

open grafanastore

/-- One step of the status-counting loop of healthbus.Business.QueryHealthChecks
(lines 45-54): the `switch` bumps one counter per known status, none for any
other string. -/
def countStatusStep (summary : HealthSummary) (check : HealthCheck) : HealthSummary :=
  if check.Status = StatusHealthy then { summary with Healthy := summary.Healthy + 1 }
  else if check.Status = StatusDown then { summary with Down := summary.Down + 1 }
  else if check.Status = StatusUnknown then { summary with Unknown := summary.Unknown + 1 }
  else summary

/-- healthbus.Business.QueryHealthChecks: delegate to the storer, then build
the summary with `Total = len(checks)` and count the statuses. The storer
call result is the argument. -/
def BusinessQueryHealthChecks (storeResult : Except StoreError (List HealthCheck)) :
    Except StoreError HealthSummary :=
  match storeResult with
  | .error err => .error err
  | .ok checks =>
    let summary : HealthSummary :=
      { Total := checks.length, Healthy := 0, Down := 0, Unknown := 0, Checks := checks }
    .ok (checks.foldl countStatusStep summary)

/-- healthbus.Business.QueryHealthCheckByTarget: pure delegation. -/
def BusinessQueryHealthCheckByTarget (storeResult : Except StoreError HealthCheck) :
    Except StoreError HealthCheck :=
  storeResult

/-- healthbus.Business.QueryAlerts: pure delegation. -/
def BusinessQueryAlerts (storeResult : Except StoreError AlertSummary) :
    Except StoreError AlertSummary :=
  storeResult

end healthbus

namespace errs

/-- The `ErrCode` enumeration (Go `int` constants by `iota`). The Go type is
an integer, so values outside the enumeration are representable. -/
def OK : Int := 0

/-- ErrCode Canceled. -/
def Canceled : Int := 1

/-- ErrCode Unknown. -/
def Unknown : Int := 2

/-- ErrCode InvalidArgument. -/
def InvalidArgument : Int := 3

/-- ErrCode DeadlineExceeded. -/
def DeadlineExceeded : Int := 4

/-- ErrCode NotFound. -/
def NotFound : Int := 5

/-- ErrCode AlreadyExists. -/
def AlreadyExists : Int := 6

/-- ErrCode PermissionDenied. -/
def PermissionDenied : Int := 7

/-- ErrCode Unauthenticated. -/
def Unauthenticated : Int := 8

/-- ErrCode ResourceExhausted. -/
def ResourceExhausted : Int := 9

/-- ErrCode FailedPrecondition. -/
def FailedPrecondition : Int := 10

/-- ErrCode Aborted. -/
def Aborted : Int := 11

/-- ErrCode OutOfRange. -/
def OutOfRange : Int := 12

/-- ErrCode Unimplemented. -/
def Unimplemented : Int := 13

/-- ErrCode Internal. -/
def Internal : Int := 14

/-- ErrCode Unavailable. -/
def Unavailable : Int := 15

/-- ErrCode DataLoss. -/
def DataLoss : Int := 16

/-- ErrCode InternalOnlyLog: internal error that should not be exposed to
clients. -/
def InternalOnlyLog : Int := 17

/-- errs.Error. `FuncName` and `FileName` carry `runtime.Caller` metadata;
they are tagged `json:"-"` and never serialized to the client. -/
structure Error where
  Code : Int
  Message : String
  FuncName : String
  FileName : String
deriving DecidableEq

/-- errs.New / errs.Newf: capture code and message. The `runtime.Caller`
metadata is log-only (`json:"-"`) and carries no client-visible content, so
it is modelled as empty strings. -/
def Newf (code : Int) (message : String) : Error :=
  { Code := code, Message := message, FuncName := "", FileName := "" }

/-- The `httpStatus` lookup table (a Go `map[ErrCode]int`). -/
def httpStatus : List (Int × Int) :=
  [(OK, 200), (Canceled, 408), (Unknown, 500), (InvalidArgument, 400),
   (DeadlineExceeded, 504), (NotFound, 404), (AlreadyExists, 409),
   (PermissionDenied, 403), (Unauthenticated, 401), (ResourceExhausted, 429),
   (FailedPrecondition, 400), (Aborted, 409), (OutOfRange, 400),
   (Unimplemented, 501), (Internal, 500), (Unavailable, 503),
   (DataLoss, 500), (InternalOnlyLog, 500)]

/-- Go map access on the `httpStatus` table: the mapped value when the key
is present, the zero value `0` otherwise. -/
def mapAccess : List (Int × Int) → Int → Int
  | [], _ => 0
  | (k, v) :: rest, code => if k = code then v else mapAccess rest code

/-- errs.Error.HTTPStatus: `httpStatus[e.Code]`, a Go map read. -/
def Error.HTTPStatus (e : Error) : Int :=
  mapAccess httpStatus e.Code

/-- The client-visible JSON fields of `json.Marshal` on an `Error`: only the
json-tagged fields `code` and `message`; `FuncName`/`FileName` are tagged
`json:"-"` and excluded. -/
def Error.marshalFields (e : Error) : List (String × String) :=
  [("code", toString e.Code), ("message", e.Message)]

end errs

namespace web

open healthbus

/-- The payloads the handlers of this service wrap in web.JSONResponse. -/
inductive Payload where
  | healthSummary (s : HealthSummary)
  | healthCheck (c : HealthCheck)
  | alertSummary (a : AlertSummary)
  | probeStatus (status : String)
deriving DecidableEq

/-- A value satisfying the web.Encoder contract as returned by a handler:
either a `web.JSONResponse` around a payload or a structured `errs.Error`. -/
inductive Encoder where
  | jsonResponse (data : Payload)
  | appError (e : errs.Error)
deriving DecidableEq

end web

namespace healthapp

open healthbus grafanastore web

/-- healthapp.App.QueryHealthChecks (GET /api/v1/health): any business-layer
error is wrapped as `errs.Internal` with the `query health checks: %s`
message. -/
def AppQueryHealthChecks (busResult : Except StoreError HealthSummary) : Encoder :=
  match busResult with
  | .error err => .appError (errs.Newf errs.Internal ("query health checks: " ++ err.message))
  | .ok summary => .jsonResponse (.healthSummary summary)

/-- healthapp.App.QueryHealthCheckByTarget (GET /api/v1/health/\x7btarget\x7d):
an empty target fails fast with InvalidArgument before the business call;
any business-layer error is wrapped as `errs.NotFound`. -/
def AppQueryHealthCheckByTarget (target : String)
    (busResult : Except StoreError HealthCheck) : Encoder :=
  if target = "" then .appError (errs.Newf errs.InvalidArgument "target parameter required")
  else
    match busResult with
    | .error err => .appError (errs.Newf errs.NotFound ("health check not found: " ++ err.message))
    | .ok check => .jsonResponse (.healthCheck check)

/-- healthapp.App.QueryAlerts (GET /api/v1/alerts): any business-layer error
is wrapped as `errs.Internal`. -/
def AppQueryAlerts (busResult : Except StoreError AlertSummary) : Encoder :=
  match busResult with
  | .error err => .appError (errs.Newf errs.Internal ("query alerts: " ++ err.message))
  | .ok summary => .jsonResponse (.alertSummary summary)

end healthapp

namespace mid

open web

/-- What a wrapped handler invocation does, as observed by the panic-recovery
middleware: either it returns an encoder (possibly nil), or it panics with
some recovered value rendered by `%v`. -/
inductive HandlerOutcome where
  | ret (resp : Option Encoder)
  | panicked (recMsg : String)

/-- mid.Panics: a panic is recovered and converted into an `errs.Internal`
error whose message is `panic: %v\n%s` with the recovered value and the
stack trace from `debug.Stack()`. -/
def Panics (trace : String) (outcome : HandlerOutcome) : Option Encoder :=
  match outcome with
  | .ret resp => resp
  | .panicked recMsg =>
    some (.appError (errs.Newf errs.Internal ("panic: " ++ recMsg ++ "\n" ++ trace)))

/-- mid.Errors: non-error responses pass through; an `errs.Error` response
is logged and, when its code is `InternalOnlyLog`, rewritten to a generic
Internal error before encoding. -/
def Errors (resp : Option Encoder) : Option Encoder :=
  match resp with
  | none => none
  | some (.jsonResponse p) => some (.jsonResponse p)
  | some (.appError e) =>
    if e.Code = errs.InternalOnlyLog then
      some (.appError (errs.Newf errs.Internal "internal server error"))
    else some (.appError e)

end mid

namespace web

/-- The observable state of an `http.ResponseWriter`: headers set, the first
status code written (net/http ignores any later `WriteHeader` as
superfluous), and the body chunks written. -/
structure Writer where
  headers : List (String × String)
  statusWritten : Option Int
  body : List String
deriving DecidableEq

/-- Header().Set on the response writer: replace or add the key. -/
def Writer.setHeader (w : Writer) (key value : String) : Writer :=
  { w with headers := (w.headers.filter (fun kv => kv.1 ≠ key)) ++ [(key, value)] }

/-- WriteHeader on the response writer: only the first call takes effect. -/
def Writer.writeHeader (w : Writer) (code : Int) : Writer :=
  match w.statusWritten with
  | some _ => w
  | none => { w with statusWritten := some code }

/-- A fresh response writer. -/
def emptyWriter : Writer :=
  { headers := [], statusWritten := none, body := [] }

/-- Result of running the CORS-wrapped handler chain: the writer state, the
encoder handed back up the chain, and whether the inner handler ran. -/
structure ChainResult where
  writer : Writer
  resp : Option Encoder
  handlerInvoked : Bool
deriving DecidableEq

end web

namespace mid

open web

/-- mid.Cors around an inner handler: always set the three CORS headers;
on an `OPTIONS` request write status 200 and return nil without calling the
inner handler, otherwise call it. The inner handler is represented by the
encoder it would return (the handlers of this service never touch the
writer themselves). -/
def Cors (origin : String) (method : String) (w : Writer)
    (handler : Option Encoder) : ChainResult :=
  let w := ((w.setHeader "Access-Control-Allow-Origin" origin).setHeader
    "Access-Control-Allow-Methods" "GET, POST, PUT, DELETE, OPTIONS").setHeader
    "Access-Control-Allow-Headers" "Content-Type, Authorization"
  if method = "OPTIONS" then
    { writer := w.writeHeader 200, resp := none, handlerInvoked := false }
  else
    { writer := w, resp := handler, handlerInvoked := true }

end mid

namespace web

/-- The status code web.Respond resolves for an encoder: errors expose
`HTTPStatus`, `web.JSONResponse` does not, so it defaults to 200 OK. -/
def encoderStatus : Encoder → Int
  | .jsonResponse _ => 200
  | .appError e => e.HTTPStatus

/-- web.Respond: a nil response writes status 204 No Content (ignored when a
status was already written); otherwise the encoder is serialized, the
content type set, the resolved status written, and the bytes appended. The
serialized bytes are abstracted by the marker `"<json>"`. -/
def Respond (w : Writer) (resp : Option Encoder) : Writer :=
  match resp with
  | none => w.writeHeader 204
  | some enc =>
    let w := w.setHeader "Content-Type" "application/json"
    let w := w.writeHeader (encoderStatus enc)
    { w with body := w.body ++ ["<json>"] }

/-- The route table built by healthapp.Routes via `App.HandlerFunc` /
`App.HandlerFuncNoMid`: each pattern is `fmt.Sprintf("%s %s%s", method,
group, path)`, stored here as the (method, group+path) pair. -/
def routeTable : List (String × String) :=
  [("GET", "/api/v1/health"),
   ("GET", "/api/v1/health/\x7btarget\x7d"),
   ("GET", "/api/v1/alerts"),
   ("GET", "/liveness"),
   ("GET", "/readiness"),
   ("GET", "/healthz")]

/-- Splitting a path on `/` (structural recursion over the characters). -/
def splitSegs : List Char → List (List Char)
  | [] => [[]]
  | c :: rest =>
    let segs := splitSegs rest
    if c = '/' then [] :: segs
    else
      match segs with
      | [] => [[c]]
      | seg :: more => (c :: seg) :: more

/-- A pattern segment of the form `\x7bname\x7d` is a wildcard matching any
single path segment. -/
def segMatches (pat seg : List Char) : Bool :=
  (match pat with
   | '\x7b' :: rest => rest ≠ [] && rest.getLast? = some '\x7d'
   | _ => false) || pat == seg

/-- Whether a registered path pattern matches a concrete request path,
segment by segment (Go 1.22+ net/http ServeMux matching for the literal and
single-wildcard patterns this app registers). -/
def pathMatches (pattern path : String) : Bool :=
  let ps := splitSegs pattern.toList
  let qs := splitSegs path.toList
  ps.length == qs.length && (List.zip ps qs).all (fun pq => segMatches pq.1 pq.2)

/-- Whether a pattern registered for `patMethod` accepts a request method
(Go 1.22+ ServeMux: the method must match exactly; registering GET also
registers HEAD; no other method is implied). -/
def methodMatches (patMethod method : String) : Bool :=
  patMethod == method || (patMethod == "GET" && method == "HEAD")

/-- Outcome of ServeMux dispatch for a request. -/
inductive MuxResult where
  | matched (method pattern : String)
  | methodNotAllowed
  | notFound
deriving DecidableEq

/-- Go 1.22+ net/http ServeMux dispatch over the registered method-qualified
patterns: a pattern matching both path and method dispatches to its handler;
a path match with no method match yields 405 Method Not Allowed and no
handler (and no middleware) runs; no path match yields 404. -/
def muxDispatch (routes : List (String × String)) (method path : String) : MuxResult :=
  match routes.find? (fun r => pathMatches r.2 path && methodMatches r.1 method) with
  | some r => .matched r.1 r.2
  | none =>
    if routes.any (fun r => pathMatches r.2 path) then .methodNotAllowed
    else .notFound

end web

namespace grafanastore

open healthbus

/-- The rule objects a response traversal visits, in enumeration order:
object entries of the `rules` array (non-objects skipped). -/
def objRules : List Json → List JObj
  | [] => []
  | Json.obj r :: rest => r :: objRules rest
  | _ :: rest => objRules rest

/-- The rule objects of all groups, in enumeration order: non-object groups
and groups without a `rules` array contribute nothing. -/
def rulesOfGroups : List Json → List JObj
  | [] => []
  | Json.obj g :: rest =>
    (match jlookup g "rules" with
     | some (Json.arr rules) => objRules rules ++ rulesOfGroups rest
     | _ => rulesOfGroups rest)
  | _ :: rest => rulesOfGroups rest

/-- All rule objects of a decoded response body, in enumeration order;
empty when `data` is not an object or `groups` not an array. -/
def rulesOf (stateData : JObj) : List JObj :=
  match jlookup stateData "data" with
  | some (Json.obj data) =>
    match jlookup data "groups" with
    | some (Json.arr groups) => rulesOfGroups groups
    | _ => []
  | _ => []

lemma foldl_checksRuleStep (parse : String → Option Int) (now : Int)
    (rules : List Json) :
    ∀ checks, rules.foldl (checksRuleStep parse now) checks
      = checks ++ (objRules rules).filterMap (ruleToCheck parse now) := by
  induction rules with
  | nil => intro checks; simp [objRules]
  | cons rule rest ih =>
    intro checks
    cases rule <;> simp only [List.foldl_cons, checksRuleStep, objRules] <;>
      try exact ih checks
    case obj r =>
      cases hr : ruleToCheck parse now r <;>
        simp [hr, ih, List.filterMap_cons]

lemma foldl_checksGroupStep (parse : String → Option Int) (now : Int)
    (groups : List Json) :
    ∀ checks, groups.foldl (checksGroupStep parse now) checks
      = checks ++ (rulesOfGroups groups).filterMap (ruleToCheck parse now) := by
  induction groups with
  | nil => intro checks; simp [rulesOfGroups]
  | cons group rest ih =>
    intro checks
    cases group <;> simp only [List.foldl_cons, checksGroupStep, rulesOfGroups] <;>
      try exact ih checks
    case obj g =>
      cases hg : jlookup g "rules" with
      | none => simp [hg, ih]
      | some v =>
        cases v <;>
          simp [hg, ih, foldl_checksRuleStep, List.filterMap_append, List.append_assoc]

lemma extractChecks_eq_filterMap (stateData : JObj) (parse : String → Option Int)
    (now : Int) :
    extractChecks stateData parse now
      = (rulesOf stateData).filterMap (ruleToCheck parse now) := by
  unfold extractChecks rulesOf
  cases hd : jlookup stateData "data" with
  | none => rfl
  | some v =>
    cases v <;> try rfl
    case obj data =>
      dsimp only
      cases hg : jlookup data "groups" with
      | none => rfl
      | some w =>
        cases w <;> try rfl
        case arr groups => simpa using foldl_checksGroupStep parse now groups []

end grafanastore

namespace grafanastore

open healthbus

/-- The match predicate of the by-target traversal. -/
def targetPred (target : String) (r : JObj) : Bool :=
  mget (getStringMap r "labels") "target" == target

lemma findInRules_eq (parse : String → Option Int) (now : Int) (target : String)
    (rules : List Json) :
    findInRules parse now target rules
      = ((objRules rules).find? (targetPred target)).map
          (projectRuleByTarget parse now target) := by
  induction rules with
  | nil => rfl
  | cons rule rest ih =>
    cases rule <;> simp only [findInRules, objRules] <;> try exact ih
    case obj r =>
      by_cases hr : mget (getStringMap r "labels") "target" = target
      · rw [if_pos hr, List.find?_cons_of_pos _ (by simp [targetPred, hr])]
        rfl
      · rw [if_neg hr, List.find?_cons_of_neg _ (by simp [targetPred, hr]), ih]

lemma findInGroups_eq (parse : String → Option Int) (now : Int) (target : String)
    (groups : List Json) :
    findInGroups parse now target groups
      = ((rulesOfGroups groups).find? (targetPred target)).map
          (projectRuleByTarget parse now target) := by
  induction groups with
  | nil => rfl
  | cons group rest ih =>
    cases group <;> simp only [findInGroups, rulesOfGroups] <;> try exact ih
    case obj g =>
      cases hg : jlookup g "rules" with
      | none => exact ih
      | some v =>
        cases v <;> try exact ih
        case arr rules =>
          dsimp only
          rw [findInRules_eq]
          cases hf : (objRules rules).find? (targetPred target) with
          | some c => simp [List.find?_append, hf]
          | none => simp [List.find?_append, hf, ih]

lemma ruleStatus_cases (state : String) :
    ruleStatus state = StatusHealthy ∨ ruleStatus state = StatusDown ∨
      ruleStatus state = StatusUnknown := by
  unfold ruleStatus
  split_ifs <;> simp

lemma ruleToCheck_some_status (parse : String → Option Int) (now : Int)
    (r : JObj) (c : HealthCheck) (h : ruleToCheck parse now r = some c) :
    c.Status = ruleStatus (getString r "state") := by
  unfold ruleToCheck at h
  dsimp only at h
  split at h
  · cases h
  · injection h with h
    subst h
    rfl

lemma extractChecks_status_known (stateData : JObj) (parse : String → Option Int)
    (now : Int) :
    ∀ c ∈ extractChecks stateData parse now,
      c.Status = StatusHealthy ∨ c.Status = StatusDown ∨ c.Status = StatusUnknown := by
  intro c hc
  rw [extractChecks_eq_filterMap] at hc
  obtain ⟨r, _, hr⟩ := List.mem_filterMap.mp hc
  rw [ruleToCheck_some_status parse now r c hr]
  exact ruleStatus_cases _

lemma queryHealthChecks_ok_inv (s : Store) (outcome : FetchOutcome)
    (parse : String → Option Int) (now : Int) (checks : List HealthCheck)
    (h : s.QueryHealthChecks outcome parse now = .ok checks) :
    ∃ stateData, checks = extractChecks stateData parse now := by
  unfold Store.QueryHealthChecks at h
  split at h
  · simp at h
  · cases outcome with
    | requestError => simp at h
    | transportError => simp at h
    | response statusCode decoded =>
      dsimp only at h
      split at h
      · simp at h
      · cases decoded with
        | none => simp at h
        | some stateData =>
          injection h with h
          exact ⟨stateData, h.symm⟩

end grafanastore

namespace healthbus

open grafanastore

/-- Whether a check carries one of the three enumerated status strings. -/
def isKnownStatus (c : HealthCheck) : Bool :=
  c.Status == StatusHealthy || c.Status == StatusDown || c.Status == StatusUnknown

lemma countStatusStep_fields (sum : HealthSummary) (c : HealthCheck) :
    (countStatusStep sum c).Total = sum.Total ∧
    (countStatusStep sum c).Checks = sum.Checks ∧
    (countStatusStep sum c).Healthy + (countStatusStep sum c).Down +
        (countStatusStep sum c).Unknown
      = sum.Healthy + sum.Down + sum.Unknown +
          (if isKnownStatus c then 1 else 0) := by
  unfold countStatusStep isKnownStatus
  split_ifs with h1 h2 h3 <;> simp_all <;> omega

lemma foldl_countStatusStep (checks : List HealthCheck) :
    ∀ sum : HealthSummary,
      (checks.foldl countStatusStep sum).Total = sum.Total ∧
      (checks.foldl countStatusStep sum).Checks = sum.Checks ∧
      (checks.foldl countStatusStep sum).Healthy +
          (checks.foldl countStatusStep sum).Down +
          (checks.foldl countStatusStep sum).Unknown
        = sum.Healthy + sum.Down + sum.Unknown + checks.countP isKnownStatus := by
  induction checks with
  | nil => intro sum; simp
  | cons c rest ih =>
    intro sum
    simp only [List.foldl_cons, List.countP_cons]
    obtain ⟨t1, t2, t3⟩ := ih (countStatusStep sum c)
    obtain ⟨s1, s2, s3⟩ := countStatusStep_fields sum c
    refine ⟨t1.trans s1, t2.trans s2, ?_⟩
    rw [t3, s3]
    cases hic : isKnownStatus c <;> simp [hic] <;> omega

end healthbus

namespace grafanastore

open healthbus

/-- The invariant every alert summary built by `QueryAlerts` satisfies:
`Total` counts `Alerts`, and each named counter counts exactly the alerts
with the corresponding state string. -/
def AlertSummaryInv (sum : AlertSummary) : Prop :=
  sum.Total = sum.Alerts.length ∧
  sum.Firing = sum.Alerts.countP (fun a => a.State == "firing") ∧
  sum.Pending = sum.Alerts.countP (fun a => a.State == "pending") ∧
  sum.Normal = sum.Alerts.countP (fun a => a.State == "normal")

lemma foldl_inv {α β : Type} (P : β → Prop) (step : β → α → β)
    (hstep : ∀ b a, P b → P (step b a)) :
    ∀ (l : List α) (b : β), P b → P (l.foldl step b) := by
  intro l
  induction l with
  | nil => intro b hb; exact hb
  | cons a rest ih => intro b hb; exact ih (step b a) (hstep b a hb)

lemma addAlert_inv (sum : AlertSummary) (r : JObj) (h : AlertSummaryInv sum) :
    AlertSummaryInv (addAlert sum r) := by
  obtain ⟨h1, h2, h3, h4⟩ := h
  unfold AlertSummaryInv addAlert
  by_cases hf : (alertOfRule r).State = "firing"
  · simp [hf, List.countP_append, List.countP_cons, h1, h2, h3, h4]
  · by_cases hp : (alertOfRule r).State = "pending"
    · simp [hf, hp, List.countP_append, List.countP_cons, h1, h2, h3, h4]
    · by_cases hn : (alertOfRule r).State = "normal"
      · simp [hf, hp, hn, List.countP_append, List.countP_cons, h1, h2, h3, h4]
      · simp [hf, hp, hn, List.countP_append, List.countP_cons, h1, h2, h3, h4]

lemma alertsRuleStep_inv (sum : AlertSummary) (rule : Json)
    (h : AlertSummaryInv sum) : AlertSummaryInv (alertsRuleStep sum rule) := by
  cases rule <;> simp only [alertsRuleStep] <;> try exact h
  case obj r => exact addAlert_inv sum r h

lemma alertsGroupStep_inv (sum : AlertSummary) (group : Json)
    (h : AlertSummaryInv sum) : AlertSummaryInv (alertsGroupStep sum group) := by
  cases group <;> simp only [alertsGroupStep] <;> try exact h
  case obj g =>
    cases hg : jlookup g "rules" with
    | none => exact h
    | some v =>
      cases v <;> try exact h
      case arr rules => exact foldl_inv AlertSummaryInv alertsRuleStep alertsRuleStep_inv rules sum h

lemma emptyAlertSummary_inv : AlertSummaryInv emptyAlertSummary := by
  unfold AlertSummaryInv emptyAlertSummary
  simp

lemma queryAlerts_ok_inv (s : Store) (outcome : FetchOutcome) (sum : AlertSummary)
    (h : s.QueryAlerts outcome = .ok sum) : AlertSummaryInv sum := by
  unfold Store.QueryAlerts at h
  split at h
  · simp at h
  · cases outcome with
    | requestError => simp at h
    | transportError => simp at h
    | response statusCode decoded =>
      dsimp only at h
      split at h
      · simp at h
      · cases decoded with
        | none => simp at h
        | some stateData =>
          dsimp only at h
          have base : ∀ v, (Except.ok v : Except StoreError AlertSummary) = .ok sum → AlertSummaryInv v → AlertSummaryInv sum := by
            intro v hv hinv
            injection hv with hv
            exact hv ▸ hinv
          cases hd : jlookup stateData "data" with
          | none => rw [hd] at h; exact base _ h emptyAlertSummary_inv
          | some v =>
            rw [hd] at h
            cases v <;> try exact base _ h emptyAlertSummary_inv
            case obj data =>
              dsimp only at h
              cases hg : jlookup data "groups" with
              | none => rw [hg] at h; exact base _ h emptyAlertSummary_inv
              | some w =>
                rw [hg] at h
                cases w <;> try exact base _ h emptyAlertSummary_inv
                case arr groups =>
                  exact base _ h
                    (foldl_inv AlertSummaryInv alertsGroupStep alertsGroupStep_inv
                      groups emptyAlertSummary emptyAlertSummary_inv)

end grafanastore

namespace healthapp

/-- healthapp.App.Liveness: fixed payload, no business call. -/
def Liveness : web.Encoder := .jsonResponse (.probeStatus "ok")

/-- healthapp.App.Readiness: fixed payload, no business call. -/
def Readiness : web.Encoder := .jsonResponse (.probeStatus "ok")

end healthapp

namespace errs

lemma mapAccess_eq_zero (tbl : List (Int × Int)) (code : Int)
    (h : ∀ p ∈ tbl, p.1 ≠ code) : mapAccess tbl code = 0 := by
  induction tbl with
  | nil => rfl
  | cons p rest ih =>
    obtain ⟨k, v⟩ := p
    simp only [mapAccess]
    rw [if_neg (h (k, v) (List.mem_cons_self _ _))]
    exact ih (fun q hq => h q (List.mem_cons_of_mem _ hq))

end errs

/-- A store with a configured Grafana base URL, for concrete evaluation. -/
def sampleStore : grafanastore.Store :=
  { grafanaURL := "http://grafana:3000", grafanaUser := "admin", grafanaPassword := "admin" }

/-- A store with the Grafana base URL unset. -/
def emptyStore : grafanastore.Store :=
  { grafanaURL := "", grafanaUser := "", grafanaPassword := "" }

/-- An RFC3339 parse function that accepts nothing, for concrete evaluation. -/
def noParse : String → Option Int := fun _ => none

/-- A decoded rules-endpoint response with one group of three rules: a
normal rule with a target, a firing rule with a target and a nested alert,
and a pending rule without a target label. -/
def sampleData : JObj :=
  [("status", Json.str "success"),
   ("data", Json.obj
     [("groups", Json.arr
       [Json.obj
         [("name", Json.str "g1"),
          ("rules", Json.arr
            [Json.obj
              [("name", Json.str "up-example"),
               ("state", Json.str "normal"),
               ("labels", Json.obj
                 [("target", Json.str "https://example.com"),
                  ("probe", Json.str "blackbox")])],
             Json.obj
              [("name", Json.str "down-example"),
               ("state", Json.str "firing"),
               ("labels", Json.obj
                 [("target", Json.str "https://down.example"),
                  ("probe", Json.str "blackbox")]),
               ("alerts", Json.arr
                 [Json.obj [("activeAt", Json.str "T1"), ("value", Json.str "0")]])],
             Json.obj
              [("name", Json.str "no-target"),
               ("state", Json.str "pending"),
               ("labels", Json.obj [("severity", Json.str "warn")])]])]])])]

/-- C4: the projection from a backend rule state string to a check status is
the pure function mapping "firing" to down, "pending" to unknown, and every
other string (including "normal" and "") to healthy, and it is the
projection applied by both QueryHealthChecks (via ruleToCheck) and
QueryHealthCheckByTarget (via projectRuleByTarget). -/
theorem C4_status_projection_pure :
    grafanastore.ruleStatus "firing" = healthbus.StatusDown ∧
    grafanastore.ruleStatus "pending" = healthbus.StatusUnknown ∧
    grafanastore.ruleStatus "normal" = healthbus.StatusHealthy ∧
    grafanastore.ruleStatus "" = healthbus.StatusHealthy ∧
    (∀ state : String, state ≠ "firing" → state ≠ "pending" →
      grafanastore.ruleStatus state = healthbus.StatusHealthy) ∧
    (∀ (parse : String → Option Int) (now : Int) (r : JObj) (c : healthbus.HealthCheck),
      grafanastore.ruleToCheck parse now r = some c →
      c.Status = grafanastore.ruleStatus (grafanastore.getString r "state")) ∧
    (∀ (parse : String → Option Int) (now : Int) (target : String) (r : JObj),
      (grafanastore.projectRuleByTarget parse now target r).Status
        = grafanastore.ruleStatus (grafanastore.getString r "state")) := by
  refine ⟨by decide, by decide, by decide, by decide, ?_, ?_, ?_⟩
  · intro state h1 h2
    unfold grafanastore.ruleStatus
    rw [if_neg h1, if_neg h2]
  · exact fun parse now r c h => grafanastore.ruleToCheck_some_status parse now r c h
  · intro parse now target r
    rfl

/-- C4 witness: the projection evaluated at a string outside the two mapped
states yields healthy. -/
theorem C4_witness :
    ("weird" : String) ≠ "firing" ∧ ("weird" : String) ≠ "pending" ∧
    grafanastore.ruleStatus "weird" = healthbus.StatusHealthy :=
  ⟨by decide, by decide,
    C4_status_projection_pure.2.2.2.2.1 "weird" (by decide) (by decide)⟩

/-- C7 counterexample: the error code 18 lies outside the enumeration
(`OK = 0` through `InternalOnlyLog = 17`), and `HTTPStatus` on it returns
the Go map zero value 0, which is not a server-error status. -/
theorem C7_counterexample :
    errs.Error.HTTPStatus { Code := 18, Message := "", FuncName := "", FileName := "" } = 0 ∧
    ¬ (500 ≤ errs.Error.HTTPStatus { Code := 18, Message := "", FuncName := "", FileName := "" }) := by
  decide

/-- C7 amended: `HTTPStatus` maps each enumerated kind to exactly one
status code per the fixed lookup table, and maps any code outside the
enumeration to the Go map zero value 0 (not a generic server-error
status). -/
theorem C7_httpstatus_table (e : errs.Error) :
    (e.Code = errs.OK → e.HTTPStatus = 200) ∧
    (e.Code = errs.Canceled → e.HTTPStatus = 408) ∧
    (e.Code = errs.Unknown → e.HTTPStatus = 500) ∧
    (e.Code = errs.InvalidArgument → e.HTTPStatus = 400) ∧
    (e.Code = errs.DeadlineExceeded → e.HTTPStatus = 504) ∧
    (e.Code = errs.NotFound → e.HTTPStatus = 404) ∧
    (e.Code = errs.AlreadyExists → e.HTTPStatus = 409) ∧
    (e.Code = errs.PermissionDenied → e.HTTPStatus = 403) ∧
    (e.Code = errs.Unauthenticated → e.HTTPStatus = 401) ∧
    (e.Code = errs.ResourceExhausted → e.HTTPStatus = 429) ∧
    (e.Code = errs.FailedPrecondition → e.HTTPStatus = 400) ∧
    (e.Code = errs.Aborted → e.HTTPStatus = 409) ∧
    (e.Code = errs.OutOfRange → e.HTTPStatus = 400) ∧
    (e.Code = errs.Unimplemented → e.HTTPStatus = 501) ∧
    (e.Code = errs.Internal → e.HTTPStatus = 500) ∧
    (e.Code = errs.Unavailable → e.HTTPStatus = 503) ∧
    (e.Code = errs.DataLoss → e.HTTPStatus = 500) ∧
    (e.Code = errs.InternalOnlyLog → e.HTTPStatus = 500) ∧
    ((e.Code < 0 ∨ 17 < e.Code) → e.HTTPStatus = 0) := by
  have hdefault : (e.Code < 0 ∨ 17 < e.Code) → e.HTTPStatus = 0 := by
    intro h
    unfold errs.Error.HTTPStatus
    apply errs.mapAccess_eq_zero
    intro p hp
    simp only [errs.httpStatus] at hp
    fin_cases hp <;>
      simp only [errs.OK, errs.Canceled, errs.Unknown, errs.InvalidArgument,
        errs.DeadlineExceeded, errs.NotFound, errs.AlreadyExists,
        errs.PermissionDenied, errs.Unauthenticated, errs.ResourceExhausted,
        errs.FailedPrecondition, errs.Aborted, errs.OutOfRange,
        errs.Unimplemented, errs.Internal, errs.Unavailable, errs.DataLoss,
        errs.InternalOnlyLog] <;> omega
  refine ⟨?_, ?_, ?_, ?_, ?_, ?_, ?_, ?_, ?_, ?_, ?_, ?_, ?_, ?_, ?_, ?_, ?_, ?_, hdefault⟩
  all_goals intro h
  all_goals unfold errs.Error.HTTPStatus
  all_goals rw [h]
  all_goals decide

/-- C7 witness: an enumerated kind hits its table entry; a code outside the
enumeration hits the zero default. -/
theorem C7_witness :
    (errs.Newf errs.Unavailable "backend down").HTTPStatus = 503 ∧
    (errs.Newf 18 "").HTTPStatus = 0 := by
  obtain ⟨-, -, -, -, -, -, -, -, -, -, -, -, -, -, -, hU, -, -, -⟩ :=
    C7_httpstatus_table (errs.Newf errs.Unavailable "backend down")
  obtain ⟨-, -, -, -, -, -, -, -, -, -, -, -, -, -, -, -, -, -, hz⟩ :=
    C7_httpstatus_table (errs.Newf 18 "")
  exact ⟨hU rfl, hz (by decide)⟩

/-- C8: a recovered panic is converted to an Internal (not InternalOnlyLog)
error whose message embeds the stack trace; the error-normalization
middleware passes it through unchanged, and json.Marshal serializes its
`message` field to the client, so the stack trace reaches the client body. -/
theorem C8_panic_trace_reaches_client (recMsg trace : String) :
    mid.Errors (mid.Panics trace (.panicked recMsg))
      = some (.appError (errs.Newf errs.Internal ("panic: " ++ recMsg ++ "\n" ++ trace))) ∧
    (errs.Newf errs.Internal ("panic: " ++ recMsg ++ "\n" ++ trace)).marshalFields
      = [("code", "14"), ("message", "panic: " ++ recMsg ++ "\n" ++ trace)] ∧
    (∃ pre, (errs.Newf errs.Internal ("panic: " ++ recMsg ++ "\n" ++ trace)).Message
      = pre ++ trace) := by
  refine ⟨?_, rfl, ⟨"panic: " ++ recMsg ++ "\n", rfl⟩⟩
  simp [mid.Panics, mid.Errors, errs.Newf, errs.Internal, errs.InternalOnlyLog]

/-- C9: the ServeMux rejects OPTIONS requests to every main-group route with
405 Method Not Allowed, because all patterns are registered under GET only;
had the middleware chain run, the CORS middleware would have answered 200
with no body and the CORS headers without invoking the handler. -/
theorem C9_options_rejected_before_cors :
    web.muxDispatch web.routeTable "OPTIONS" "/api/v1/health" = .methodNotAllowed ∧
    web.muxDispatch web.routeTable "OPTIONS" "/api/v1/health/x" = .methodNotAllowed ∧
    web.muxDispatch web.routeTable "OPTIONS" "/api/v1/alerts" = .methodNotAllowed ∧
    (web.routeTable.all (fun r => r.1 == "GET")) = true ∧
    (∀ (origin : String) (handler : Option web.Encoder),
      (mid.Cors origin "OPTIONS" web.emptyWriter handler).handlerInvoked = false ∧
      (web.Respond (mid.Cors origin "OPTIONS" web.emptyWriter handler).writer
        (mid.Cors origin "OPTIONS" web.emptyWriter handler).resp).statusWritten = some 200 ∧
      (web.Respond (mid.Cors origin "OPTIONS" web.emptyWriter handler).writer
        (mid.Cors origin "OPTIONS" web.emptyWriter handler).resp).body = [] ∧
      (web.Respond (mid.Cors origin "OPTIONS" web.emptyWriter handler).writer
        (mid.Cors origin "OPTIONS" web.emptyWriter handler).resp).headers
        = [("Access-Control-Allow-Origin", origin),
           ("Access-Control-Allow-Methods", "GET, POST, PUT, DELETE, OPTIONS"),
           ("Access-Control-Allow-Headers", "Content-Type, Authorization")]) := by
  refine ⟨rfl, rfl, rfl, by decide, ?_⟩
  intro origin handler
  refine ⟨rfl, rfl, rfl, ?_⟩
  simp [mid.Cors, web.Respond, web.emptyWriter, web.Writer.setHeader, web.Writer.writeHeader]

/-- C10: the by-target handler fails only with InvalidArgument (empty
target) or NotFound; in particular every error the business layer returns,
whatever its cause, is converted to a NotFound-kind error. -/
theorem C10_by_target_error_codes (target : String)
    (busResult : Except grafanastore.StoreError healthbus.HealthCheck) :
    (∀ e : errs.Error,
      healthapp.AppQueryHealthCheckByTarget target busResult = .appError e →
      e.Code = errs.InvalidArgument ∨ e.Code = errs.NotFound) ∧
    (target = "" →
      healthapp.AppQueryHealthCheckByTarget target busResult
        = .appError (errs.Newf errs.InvalidArgument "target parameter required")) ∧
    (∀ err : grafanastore.StoreError, target ≠ "" → busResult = .error err →
      healthapp.AppQueryHealthCheckByTarget target busResult
        = .appError (errs.Newf errs.NotFound ("health check not found: " ++ err.message))) := by
  refine ⟨?_, ?_, ?_⟩
  · intro e he
    unfold healthapp.AppQueryHealthCheckByTarget at he
    split at he
    · left
      injection he with he
      rw [← he]
      rfl
    · cases busResult with
      | error err =>
        right
        injection he with he
        rw [← he]
        rfl
      | ok check => simp at he
  · intro h
    unfold healthapp.AppQueryHealthCheckByTarget
    rw [if_pos h]
  · intro err h hbr
    subst hbr
    unfold healthapp.AppQueryHealthCheckByTarget
    rw [if_neg h]

/-- C10 witness: a non-empty target with a failing business call yields the
NotFound wrapping of the business error. -/
theorem C10_witness :
    ("https://example.com" : String) ≠ "" ∧
    healthapp.AppQueryHealthCheckByTarget "https://example.com"
        (.error .notConfigured)
      = .appError (errs.Newf errs.NotFound "health check not found: grafana not configured") :=
  ⟨by decide,
    (C10_by_target_error_codes "https://example.com" (.error .notConfigured)).2.2
      .notConfigured (by decide) rfl⟩

/-- C1 counterexample: with the Grafana base URL unset, GET /api/v1/health
and GET /api/v1/alerts answer with an Internal-kind error whose HTTP status
is 500 — not a Service-Unavailable-kind error and not a 503-class status. -/
theorem C1_counterexample :
    healthapp.AppQueryHealthChecks (healthbus.BusinessQueryHealthChecks
        (grafanastore.Store.QueryHealthChecks emptyStore
          (.response 200 (some sampleData)) noParse 0))
      = .appError (errs.Newf errs.Internal "query health checks: grafana not configured") ∧
    healthapp.AppQueryAlerts (healthbus.BusinessQueryAlerts
        (grafanastore.Store.QueryAlerts emptyStore (.response 200 (some sampleData))))
      = .appError (errs.Newf errs.Internal "query alerts: grafana not configured") ∧
    (errs.Newf errs.Internal "query health checks: grafana not configured").HTTPStatus = 500 ∧
    (errs.Newf errs.Internal "query health checks: grafana not configured").Code ≠ errs.Unavailable ∧
    ((500 : Int) = 503 → False) := by
  exact ⟨rfl, rfl, by decide, by decide, by decide⟩

/-- C1 amended: with the Grafana base URL unset every store query fails with
the `grafana not configured` error and no crash; the handlers wrap it as an
Internal-kind error, so /api/v1/health and /api/v1/alerts answer 500 (not
503), while the liveness and readiness handlers still answer 200. -/
theorem C1_unconfigured_degrades_to_internal (s : grafanastore.Store)
    (outcome : grafanastore.FetchOutcome) (parse : String → Option Int)
    (now : Int) (target : String) (h : s.grafanaURL = "") :
    s.QueryHealthChecks outcome parse now = .error .notConfigured ∧
    s.QueryHealthCheckByTarget target outcome parse now = .error .notConfigured ∧
    s.QueryAlerts outcome = .error .notConfigured ∧
    healthapp.AppQueryHealthChecks (healthbus.BusinessQueryHealthChecks
        (s.QueryHealthChecks outcome parse now))
      = .appError (errs.Newf errs.Internal "query health checks: grafana not configured") ∧
    healthapp.AppQueryAlerts (healthbus.BusinessQueryAlerts (s.QueryAlerts outcome))
      = .appError (errs.Newf errs.Internal "query alerts: grafana not configured") ∧
    (errs.Newf errs.Internal "query health checks: grafana not configured").HTTPStatus = 500 ∧
    (errs.Newf errs.Internal "query alerts: grafana not configured").HTTPStatus = 500 ∧
    web.encoderStatus healthapp.Liveness = 200 ∧
    web.encoderStatus healthapp.Readiness = 200 := by
  have h1 : s.QueryHealthChecks outcome parse now = .error .notConfigured := by
    unfold grafanastore.Store.QueryHealthChecks
    rw [if_pos h]
  have h2 : s.QueryHealthCheckByTarget target outcome parse now = .error .notConfigured := by
    unfold grafanastore.Store.QueryHealthCheckByTarget
    rw [if_pos h]
  have h3 : s.QueryAlerts outcome = .error .notConfigured := by
    unfold grafanastore.Store.QueryAlerts
    rw [if_pos h]
  refine ⟨h1, h2, h3, ?_, ?_, by decide, by decide, rfl, rfl⟩
  · rw [h1]
    rfl
  · rw [h3]
    rfl

/-- C1 witness: the unconfigured store evaluated concretely. -/
theorem C1_witness :
    emptyStore.grafanaURL = "" ∧
    grafanastore.Store.QueryAlerts emptyStore (.response 200 (some sampleData))
      = .error .notConfigured :=
  ⟨rfl,
    (C1_unconfigured_degrades_to_internal emptyStore
      (.response 200 (some sampleData)) noParse 0 "t" rfl).2.2.1⟩

/-- C2: every HealthSummary the business layer produces from a check list
the grafana store returned without error has `Total` equal to the length of
`Checks` and the three status counters summing to `Total`. -/
theorem C2_health_summary_invariant (s : grafanastore.Store)
    (outcome : grafanastore.FetchOutcome) (parse : String → Option Int)
    (now : Int) (sum : healthbus.HealthSummary)
    (h : healthbus.BusinessQueryHealthChecks
      (s.QueryHealthChecks outcome parse now) = .ok sum) :
    sum.Total = sum.Checks.length ∧
    sum.Healthy + sum.Down + sum.Unknown = sum.Total := by
  cases hs : s.QueryHealthChecks outcome parse now with
  | error e =>
    rw [hs] at h
    simp [healthbus.BusinessQueryHealthChecks] at h
  | ok checks =>
    rw [hs] at h
    unfold healthbus.BusinessQueryHealthChecks at h
    dsimp only at h
    injection h with h
    obtain ⟨stateData, hsd⟩ :=
      grafanastore.queryHealthChecks_ok_inv s outcome parse now checks hs
    have hall : ∀ c ∈ checks, healthbus.isKnownStatus c = true := by
      intro c hc
      have h3 := grafanastore.extractChecks_status_known stateData parse now c (hsd ▸ hc)
      unfold healthbus.isKnownStatus
      rcases h3 with h3 | h3 | h3 <;> simp [h3]
    obtain ⟨t1, t2, t3⟩ := healthbus.foldl_countStatusStep checks
      { Total := checks.length, Healthy := 0, Down := 0, Unknown := 0, Checks := checks }
    rw [← h]
    constructor
    · rw [t1, t2]
    · rw [t3, t1]
      simp [List.countP_eq_length.mpr hall]

/-- The summary the business layer produces for `sampleData`, matching the
worked example of the specification: two targeted checks, one healthy and
one down. -/
def sampleHealthSummary : healthbus.HealthSummary :=
  { Total := 2, Healthy := 1, Down := 1, Unknown := 0,
    Checks :=
      [{ Target := "https://example.com", Status := "healthy", LastChecked := 7,
         Probe := "blackbox", Instance := "" },
       { Target := "https://down.example", Status := "down", LastChecked := 7,
         Probe := "blackbox", Instance := "" }] }

/-- C2 witness: the invariant evaluated on the sample backend response. -/
theorem C2_witness :
    healthbus.BusinessQueryHealthChecks (grafanastore.Store.QueryHealthChecks
        sampleStore (.response 200 (some sampleData)) noParse 7)
      = .ok sampleHealthSummary ∧
    (sampleHealthSummary.Total = sampleHealthSummary.Checks.length ∧
     sampleHealthSummary.Healthy + sampleHealthSummary.Down + sampleHealthSummary.Unknown
       = sampleHealthSummary.Total) :=
  ⟨rfl,
    C2_health_summary_invariant sampleStore (.response 200 (some sampleData))
      noParse 7 sampleHealthSummary rfl⟩

/-- C3: every AlertSummary `QueryAlerts` returns without error counts its
`Alerts` in `Total`, and the firing/pending/normal counters count exactly
the alerts with those state strings, so an alert with any other state is in
`Alerts` and `Total` but in none of the three counters. -/
theorem C3_alert_summary_partition (s : grafanastore.Store)
    (outcome : grafanastore.FetchOutcome) (sum : healthbus.AlertSummary)
    (h : s.QueryAlerts outcome = .ok sum) :
    sum.Total = sum.Alerts.length ∧
    sum.Firing = sum.Alerts.countP (fun a => a.State == "firing") ∧
    sum.Pending = sum.Alerts.countP (fun a => a.State == "pending") ∧
    sum.Normal = sum.Alerts.countP (fun a => a.State == "normal") :=
  grafanastore.queryAlerts_ok_inv s outcome sum h

/-- The alert summary `QueryAlerts` produces for `sampleData`: three alerts,
one per known state. -/
def sampleAlertSummary : healthbus.AlertSummary :=
  { Total := 3, Firing := 1, Pending := 1, Normal := 1,
    Alerts :=
      [{ UID := "", Title := "up-example", State := "normal",
         Labels := [("target", "https://example.com"), ("probe", "blackbox")],
         Annotations := [], ActiveAt := "", Value := "" },
       { UID := "", Title := "down-example", State := "firing",
         Labels := [("target", "https://down.example"), ("probe", "blackbox")],
         Annotations := [], ActiveAt := "T1", Value := "0" },
       { UID := "", Title := "no-target", State := "pending",
         Labels := [("severity", "warn")],
         Annotations := [], ActiveAt := "", Value := "" }] }

/-- C3 witness: the partition evaluated on the sample backend response. -/
theorem C3_witness :
    grafanastore.Store.QueryAlerts sampleStore (.response 200 (some sampleData))
      = .ok sampleAlertSummary ∧
    (sampleAlertSummary.Total = sampleAlertSummary.Alerts.length ∧
     sampleAlertSummary.Firing
       = sampleAlertSummary.Alerts.countP (fun a => a.State == "firing") ∧
     sampleAlertSummary.Pending
       = sampleAlertSummary.Alerts.countP (fun a => a.State == "pending") ∧
     sampleAlertSummary.Normal
       = sampleAlertSummary.Alerts.countP (fun a => a.State == "normal")) :=
  ⟨rfl,
    C3_alert_summary_partition sampleStore (.response 200 (some sampleData))
      sampleAlertSummary rfl⟩

/-- C5: on any successfully decoded 200 response, QueryHealthChecks returns
without error the rules of the nested traversal filtered through the
per-rule projection — absent or wrongly-typed nested fields merely shrink
`rulesOf`, and a rule whose labels carry no (string) target is dropped by
the projection, never an error. -/
theorem C5_decoded_response_never_errors (s : grafanastore.Store)
    (parse : String → Option Int) (now : Int) (stateData : JObj)
    (h : s.grafanaURL ≠ "") :
    s.QueryHealthChecks (.response 200 (some stateData)) parse now
      = .ok ((grafanastore.rulesOf stateData).filterMap
          (grafanastore.ruleToCheck parse now)) ∧
    (∀ r : JObj, mget (grafanastore.getStringMap r "labels") "target" = "" →
      grafanastore.ruleToCheck parse now r = none) := by
  constructor
  · unfold grafanastore.Store.QueryHealthChecks
    rw [if_neg h]
    dsimp only
    rw [if_neg (by simp : ¬ ((200 : Int) ≠ 200))]
    rw [grafanastore.extractChecks_eq_filterMap]
  · intro r hr
    unfold grafanastore.ruleToCheck
    dsimp only
    rw [if_pos hr]

/-- C5 witness: the sample response (whose third rule has no target label)
evaluates without error to the projected check list. -/
theorem C5_witness :
    sampleStore.grafanaURL ≠ "" ∧
    grafanastore.Store.QueryHealthChecks sampleStore
        (.response 200 (some sampleData)) noParse 7
      = .ok ((grafanastore.rulesOf sampleData).filterMap
          (grafanastore.ruleToCheck noParse 7)) :=
  ⟨by decide, (C5_decoded_response_never_errors sampleStore noParse 7 sampleData (by decide)).1⟩

/-- C6: on any successfully decoded 200 response, the by-target query fails
with the target-not-found error exactly when no rule in traversal order has
`labels["target"]` equal to the requested target, and otherwise returns the
projection of the first matching rule. -/
theorem C6_by_target_first_match (s : grafanastore.Store)
    (parse : String → Option Int) (now : Int) (stateData : JObj)
    (target : String) (h : s.grafanaURL ≠ "") :
    ((grafanastore.rulesOf stateData).find? (grafanastore.targetPred target) = none →
      s.QueryHealthCheckByTarget target (.response 200 (some stateData)) parse now
        = .error (.targetNotFound target)) ∧
    (∀ r : JObj,
      (grafanastore.rulesOf stateData).find? (grafanastore.targetPred target) = some r →
      s.QueryHealthCheckByTarget target (.response 200 (some stateData)) parse now
        = .ok (grafanastore.projectRuleByTarget parse now target r)) := by
  have hquery : s.QueryHealthCheckByTarget target (.response 200 (some stateData)) parse now
      = (match (grafanastore.rulesOf stateData).find? (grafanastore.targetPred target) with
         | some r => .ok (grafanastore.projectRuleByTarget parse now target r)
         | none => .error (.targetNotFound target)) := by
    unfold grafanastore.Store.QueryHealthCheckByTarget grafanastore.rulesOf
    rw [if_neg h]
    dsimp only
    rw [if_neg (by simp : ¬ ((200 : Int) ≠ 200))]
    cases hd : jlookup stateData "data" with
    | none => rfl
    | some v =>
      cases v <;> try rfl
      case obj data =>
        dsimp only
        cases hg : jlookup data "groups" with
        | none => rfl
        | some w =>
          cases w <;> try rfl
          case arr groups =>
            dsimp only
            rw [grafanastore.findInGroups_eq]
            cases hf : (grafanastore.rulesOfGroups groups).find?
                (grafanastore.targetPred target) <;> rfl
  constructor
  · intro hn
    rw [hquery, hn]
  · intro r hr
    rw [hquery, hr]

/-- C6 witness: the sample response has no rule for target "missing" and
the query fails with the target-not-found error there. -/
theorem C6_witness :
    sampleStore.grafanaURL ≠ "" ∧
    (grafanastore.rulesOf sampleData).find? (grafanastore.targetPred "missing") = none ∧
    grafanastore.Store.QueryHealthCheckByTarget sampleStore "missing"
        (.response 200 (some sampleData)) noParse 7
      = .error (.targetNotFound "missing") :=
  ⟨by decide, rfl,
    (C6_by_target_first_match sampleStore noParse 7 sampleData "missing" (by decide)).1 rfl⟩
